import Mathlib

/-!
Verification of the DineSence live-analysis engine.

This file gives a shallow embedding, in Lean 4, of the concurrent analysis
engine of the DineSence repository and proves (or refutes) the behavioural
claims of its specification against that embedding.

The embedded parts are:
* `services/vision_analysis.py` — `NodDetector` (ring buffer, the blur
  call — an identity on the `N × 1` column, see `gaussianBlurNx1` —
  amplitude / sign-change test, cooldown) and `estimate_plate_leftover`
  (circle selection, bounds check, leftover-ratio classification);
* `services/llm_handler.py` — `gpt_image_classify_3cls` (label parsing and
  error containment around the remote call);
* `core/live_analyzer.py` — the analysis-worker cycle (`_analysis_worker`),
  the bounded queues with their `put_nowait` overflow behaviour, the engine
  start/stop lifecycle, and the configuration constants the engine reads.

External library calls (OpenCV's `HoughCircles`, colour conversion and the
HSV/morphology pixel pipeline, MediaPipe detectors, the OpenAI transport)
are consumed as opaque inputs: each such call's *outcome* is a parameter of
the embedded function, while every piece of repository logic (control flow,
thresholds, filtering, state updates) is translated directly from the
source.  Machine floats of the source are modelled as rationals, wall-clock
readings (`time.time()`) as explicit rational-valued parameters, and Python
exceptions as `Except String`.
-/

namespace DineSence

/-! ### Nod detection — `services/vision_analysis.py`, class `NodDetector`

`update_and_check` appends `nose_y - ref_y` to a `deque(maxlen=buf_len)`,
returns `False` while the deque is not full, and otherwise calls
`cv2.GaussianBlur(arr.reshape(-1, 1), (5, 1), 0)`, compares the amplitude
of the result against `amp_thresh`, counts sign changes of its first
difference, and applies a cooldown on the trigger timestamp.

The blur call is an identity: OpenCV's `ksize` is `(width, height)`, the
reshaped array is an `N × 1` *column* of width 1, so the width-5 kernel
runs along the single-pixel width axis; `borderInterpolate` on an axis of
length 1 returns index 0 for every tap (under any border mode), and the
normalized kernel therefore reproduces each pixel unchanged.  The height
kernel has size 1.  Hence the detector thresholds the *raw* buffered
sequence — `gaussianBlurNx1` below is the faithful embedding of the call.

`specSmooth5` is the other half of the comparison: the genuine width-5
smoothing along the sequence that the specification's words describe
("smooth the buffered sequence with a small symmetric averaging/blur
kernel") — equivalently, what the call would have computed with
`ksize=(1, 5)`: the fixed OpenCV binomial kernel `(1, 4, 6, 4, 1) / 16`
(used for `ksize ≤ 7` with non-positive sigma) under the default
`BORDER_REFLECT_101` border.  The code never performs it; it exists only
to state, and refute, the original smoothing claim. -/

/-- One step of Python's `deque(maxlen=m).append`: the new element goes to
the right and elements are discarded from the left so that at most `m`
remain. -/
def dequeAppend (maxlen : ℕ) (xs : List ℚ) (a : ℚ) : List ℚ :=
  let ys := xs ++ [a]
  ys.drop (ys.length - maxlen)

/-- `cv2.GaussianBlur(arr.reshape(-1, 1), (5, 1), 0)` as actually
executed on the `N × 1` column: the width-5 kernel smooths along the
width-1 axis, where every reflect-101 border tap resolves to the single
existing pixel, so the call returns its input unchanged. -/
def gaussianBlurNx1 (xs : List ℚ) : List ℚ := xs

/-- `BORDER_REFLECT_101` index folding along an axis of length `n`
(single reflection, exact for the radius-2 accesses `specSmooth5`
performs on lists of length at least 3). -/
def reflect101Idx (n : ℕ) (i : ℤ) : ℤ :=
  if i < 0 then -i else if (n : ℤ) ≤ i then 2 * ((n : ℤ) - 1) - i else i

/-- Sample a list at a possibly out-of-range index using the
`BORDER_REFLECT_101` convention. -/
def sampleR101 (xs : List ℚ) (i : ℤ) : ℚ :=
  xs.getD (reflect101Idx xs.length i).toNat 0

/-- The smoothing the specification describes (and the source's blur call
does *not* perform, see `gaussianBlurNx1`): convolution along the
sequence with the fixed OpenCV kernel `(1, 4, 6, 4, 1) / 16` under
reflect-101 borders. -/
def specSmooth5 (xs : List ℚ) : List ℚ :=
  (List.range xs.length).map fun i =>
    (sampleR101 xs ((i : ℤ) - 2) + 4 * sampleR101 xs ((i : ℤ) - 1)
      + 6 * sampleR101 xs (i : ℤ)
      + 4 * sampleR101 xs ((i : ℤ) + 1) + sampleR101 xs ((i : ℤ) + 2)) / 16

/-- `arr.max()` of a NumPy array (the empty case never occurs in the
source; it is given the junk value 0). -/
def listMax : List ℚ → ℚ
  | [] => 0
  | x :: xs => xs.foldl max x

/-- `arr.min()` of a NumPy array. -/
def listMin : List ℚ → ℚ
  | [] => 0
  | x :: xs => xs.foldl min x

/-- `np.sign`. -/
def qsign (x : ℚ) : ℤ :=
  if 0 < x then 1 else if x < 0 then -1 else 0

/-- `np.diff`: adjacent differences `xs[i+1] - xs[i]`. -/
def diffList (xs : List ℚ) : List ℚ :=
  List.zipWith (fun a b => b - a) xs xs.tail

/-- `np.sum(np.diff(signs) != 0)`: the number of adjacent positions at
which a sign sequence changes. -/
def countSignChanges (xs : List ℤ) : ℕ :=
  (List.zipWith (fun a b => if a ≠ b then 1 else 0) xs xs.tail).sum

/-- State of `vision_analysis.NodDetector`: the `y_hist` deque (oldest
first), its `maxlen`, the last trigger timestamp, the amplitude threshold,
the cooldown, and the trigger count. -/
structure NodDetector where
  yHist : List ℚ
  maxlen : ℕ
  lastNodTs : ℚ
  ampThresh : ℚ
  cooldown : ℚ
  count : ℕ
deriving DecidableEq

/-- `NodDetector.__init__(buf_len, amp_thresh, cooldown)`: empty history,
`last_nod_ts = 0.0`, `count = 0`. -/
def NodDetector.mkInit (bufLen : ℕ) (ampThresh : ℚ) (cooldown : ℚ) : NodDetector :=
  ⟨[], bufLen, 0, ampThresh, cooldown, 0⟩

/-- `NodDetector.update_and_check(nose_y, ref_y)` with the `time.time()`
reading passed explicitly as `now`.  Returns the boolean result together
with the updated detector state. -/
def NodDetector.updateAndCheck (d : NodDetector) (noseY refY now : ℚ) :
    Bool × NodDetector :=
  let rel := noseY - refY
  let hist := dequeAppend d.maxlen d.yHist rel
  if hist.length < d.maxlen then
    (false, { d with yHist := hist })
  else
    let arr := gaussianBlurNx1 hist
    let amp := listMax arr - listMin arr
    let sc := countSignChanges ((diffList arr).map qsign)
    if d.ampThresh < amp ∧ 2 ≤ sc ∧ d.cooldown < now - d.lastNodTs then
      (true, { d with yHist := hist, lastNodTs := now, count := d.count + 1 })
    else
      (false, { d with yHist := hist })

/-- Feed a list of `(nose_y, ref_y, now)` samples through the detector,
collecting each call's boolean result. -/
def runDetector (d : NodDetector) : List (ℚ × ℚ × ℚ) → List Bool × NodDetector
  | [] => ([], d)
  | i :: is =>
    let step := d.updateAndCheck i.1 i.2.1 i.2.2
    let rest := runDetector step.2 is
    (step.1 :: rest.1, rest.2)

theorem dequeAppend_length (m : ℕ) (xs : List ℚ) (a : ℚ) :
    (dequeAppend m xs a).length = min (xs.length + 1) m := by
  simp only [dequeAppend, List.length_drop, List.length_append,
    List.length_cons, List.length_nil]
  omega

theorem updateAndCheck_not_full (d : NodDetector) (noseY refY now : ℚ)
    (h : d.yHist.length + 1 < d.maxlen) :
    d.updateAndCheck noseY refY now
      = (false, { d with yHist := dequeAppend d.maxlen d.yHist (noseY - refY) }) := by
  have hlen : (dequeAppend d.maxlen d.yHist (noseY - refY)).length < d.maxlen := by
    rw [dequeAppend_length]; omega
  simp only [NodDetector.updateAndCheck, hlen, if_pos]

theorem runDetector_short_all_false :
    ∀ (inputs : List (ℚ × ℚ × ℚ)) (d : NodDetector),
      d.yHist.length + inputs.length < d.maxlen →
      ∀ b ∈ (runDetector d inputs).1, b = false := by
  intro inputs
  induction inputs with
  | nil =>
    intro d _ b hb
    simp [runDetector] at hb
  | cons i is ih =>
    intro d hlt b hb
    rw [List.length_cons] at hlt
    have h1 : d.yHist.length + 1 < d.maxlen := by omega
    have hstep := updateAndCheck_not_full d i.1 i.2.1 i.2.2 h1
    rw [runDetector, hstep] at hb
    simp only [List.mem_cons] at hb
    rcases hb with rfl | hb
    · rfl
    · refine ih _ ?_ b hb
      simp only [dequeAppend_length]
      omega

/-- The corrected property of a full-buffer `update_and_check` call: the
boolean result is the conjunction of the amplitude test, the sign-change
test and the cooldown test on the *raw* slid buffer (the blur call is an
identity on the `N × 1` column); on a `True` return the trigger timestamp
is set to `now` and the count is incremented; the buffer itself keeps
sliding (it is never cleared). -/
def nodFullBufferProp (d : NodDetector) (noseY refY now : ℚ) : Prop :=
  let hist := dequeAppend d.maxlen d.yHist (noseY - refY)
  let out := d.updateAndCheck noseY refY now
  (out.1 = true ↔
    d.ampThresh < listMax hist - listMin hist
      ∧ 2 ≤ countSignChanges ((diffList hist).map qsign)
      ∧ d.cooldown < now - d.lastNodTs)
  ∧ out.2.yHist = hist
  ∧ (out.1 = true → out.2.lastNodTs = now ∧ out.2.count = d.count + 1)
  ∧ (out.1 = false → out.2.lastNodTs = d.lastNodTs ∧ out.2.count = d.count)

/-- Counterexample to C3.  A full buffer holding one sharp spike: the
genuinely smoothed sequence described by the claim,
`specSmooth5 [0, 0, 4, 0, 0] = [1/2, 1, 3/2, 1, 1/2]`, has amplitude `1`,
not above the threshold `3` — yet the detector reports a nod, because its
blur call is an identity and the raw amplitude `4` exceeds the
threshold.  So the claimed "True iff the smoothed amplitude exceeds the
threshold AND ..." equivalence fails: the left side is `true` while the
smoothed amplitude conjunct is false. -/
theorem nod_smoothing_cx :
    ((⟨[0, 0, 4, 0], 5, 0, 3, 1, 0⟩ : NodDetector).updateAndCheck 0 0 2).1 = true
    ∧ ¬ ((3 : ℚ)
          < listMax (specSmooth5 (dequeAppend 5 [0, 0, 4, 0] (0 - 0)))
            - listMin (specSmooth5 (dequeAppend 5 [0, 0, 4, 0] (0 - 0)))) := by
  have hdeq : dequeAppend 5 [0, 0, 4, 0] ((0 : ℚ) - 0) = [0, 0, 4, 0, 0] := by
    norm_num [dequeAppend]
  constructor
  · have hcond : (3 : ℚ) < listMax [0, 0, 4, 0, 0] - listMin [0, 0, 4, 0, 0]
        ∧ 2 ≤ countSignChanges ((diffList [0, 0, 4, 0, 0]).map qsign)
        ∧ (1 : ℚ) < 2 - 0 := by
      refine ⟨?_, ?_, by norm_num⟩
      · norm_num [listMax, listMin, max_def, min_def]
      · norm_num [diffList, countSignChanges, qsign]
    rw [NodDetector.updateAndCheck]
    simp only [hdeq, gaussianBlurNx1]
    rw [if_neg (by norm_num), if_pos hcond]
  · rw [hdeq]
    have hsm : specSmooth5 [0, 0, 4, 0, 0] = [1/2, 1, 3/2, 1, 1/2] := by
      have ht2 : Int.toNat 2 = 2 := rfl
      have ht3 : Int.toNat 3 = 3 := rfl
      have ht4 : Int.toNat 4 = 4 := rfl
      norm_num [specSmooth5, List.range_succ, sampleR101, reflect101Idx,
        ht2, ht3, ht4]
    rw [hsm]
    norm_num [listMax, listMin, max_def, min_def]

/-- C3 (amended).  With a full ring buffer, `NodDetector.update_and_check`
returns `True` iff the amplitude of the raw buffered sequence strictly
exceeds the threshold, the first difference of the raw sequence has at
least two sign changes, and the time since the last reported nod exceeds
the cooldown — the blur call performs no smoothing (it is an identity on
the `N × 1` column).  On `True` it updates the trigger timestamp and
increments the count, and the buffer is not cleared. -/
theorem nod_full_buffer_spec (d : NodDetector) (noseY refY now : ℚ)
    (hfull : d.maxlen ≤ d.yHist.length + 1) :
    nodFullBufferProp d noseY refY now := by
  unfold nodFullBufferProp
  have hlen : ¬ (dequeAppend d.maxlen d.yHist (noseY - refY)).length < d.maxlen := by
    rw [dequeAppend_length]; omega
  by_cases hc :
      d.ampThresh <
          listMax (dequeAppend d.maxlen d.yHist (noseY - refY))
            - listMin (dequeAppend d.maxlen d.yHist (noseY - refY))
        ∧ 2 ≤ countSignChanges
            ((diffList (dequeAppend d.maxlen d.yHist (noseY - refY))).map qsign)
        ∧ d.cooldown < now - d.lastNodTs
  · simp [NodDetector.updateAndCheck, gaussianBlurNx1, hlen, hc]
  · simp [NodDetector.updateAndCheck, gaussianBlurNx1, hlen, hc]

/-- Witness for `nod_full_buffer_spec` at a concrete full-buffer state. -/
theorem nod_full_buffer_spec_witness :
    (⟨[0], 2, 0, 3/100, 1, 0⟩ : NodDetector).maxlen
        ≤ (⟨[0], 2, 0, 3/100, 1, 0⟩ : NodDetector).yHist.length + 1
    ∧ nodFullBufferProp ⟨[0], 2, 0, 3/100, 1, 0⟩ 1 0 10 :=
  ⟨by decide, nod_full_buffer_spec ⟨[0], 2, 0, 3/100, 1, 0⟩ 1 0 10 (by decide)⟩

/-- C4.  Fills-before-triggers: starting from a fresh detector, every call
in an input sequence shorter than the buffer capacity returns `False`. -/
theorem nod_fills_before_triggers (cap : ℕ) (thresh cd : ℚ)
    (inputs : List (ℚ × ℚ × ℚ)) (hshort : inputs.length < cap) :
    ∀ b ∈ (runDetector (NodDetector.mkInit cap thresh cd) inputs).1, b = false :=
  runDetector_short_all_false inputs (NodDetector.mkInit cap thresh cd)
    (by simpa [NodDetector.mkInit] using hshort)

/-- Witness for `nod_fills_before_triggers`: two samples into a
capacity-3 detector. -/
theorem nod_fills_before_triggers_witness :
    ([((1 : ℚ), (0 : ℚ), (0 : ℚ)), (0, 0, 1)].length < 3)
    ∧ ∀ b ∈ (runDetector (NodDetector.mkInit 3 (3/100) 1)
        [((1 : ℚ), (0 : ℚ), (0 : ℚ)), (0, 0, 1)]).1, b = false :=
  ⟨by decide, nod_fills_before_triggers 3 (3/100) 1 _ (by decide)⟩

/-! ### Plate leftover estimation — `services/vision_analysis.py`,
function `estimate_plate_leftover`

The function runs `cv2.HoughCircles(..., minRadius=60, maxRadius=0)` on
the blurred grayscale frame; the transform is an external OpenCV call, so
its outcome (`None`, or a non-empty list of rounded integer circles) is a
parameter of the embedding.  Likewise the HSV thresholding plus
morphological opening that produces `food_pixels = np.count_nonzero(food_mask)`
operates on external pixel data and is taken as an opaque count
`foodPixels : Circle → ℕ`.  Everything else — picking the largest circle,
the bounds check, the `mask` drawn by `cv2.circle((r, r), r - 2, 255, -1)`,
the `total == 0` guard, the ratio and the 0.5 threshold — is translated
from the source. -/

/-- A rounded circle `(x, y, r)` as produced by
`np.round(circles[0, :]).astype("int")`. -/
structure Circle where
  x : ℤ
  y : ℤ
  r : ℤ
deriving DecidableEq

/-- `max(circles, key=lambda c: c[2])`: Python's `max` keeps the first
element among ties and replaces the running maximum only on a strictly
larger key.  The empty case never occurs (OpenCV returns `None` instead of
an empty circle array); it is given a junk value. -/
def maxByRadius : List Circle → Circle
  | [] => ⟨0, 0, 0⟩
  | c :: cs => cs.foldl (fun best d => if best.r < d.r then d else best) c

/-- `x - r < 0 or y - r < 0 or x + r >= w or y + r >= h`. -/
def circleOutOfBounds (h w : ℕ) (c : Circle) : Bool :=
  decide (c.x - c.r < 0) || decide (c.y - c.r < 0)
    || decide ((w : ℤ) ≤ c.x + c.r) || decide ((h : ℤ) ≤ c.y + c.r)

/-- The non-zero pixels of the `(2r, 2r)` mask filled by
`cv2.circle(mask, (r, r), r - 2, 255, -1)`: the integer points of the
frame-aligned grid at distance at most `r - 2` from the centre `(r, r)`. -/
def plateMask (r : ℤ) : Finset (ℤ × ℤ) :=
  (Finset.Ico 0 (2 * r) ×ˢ Finset.Ico 0 (2 * r)).filter
    (fun p => (p.1 - r) ^ 2 + (p.2 - r) ^ 2 ≤ (r - 2) ^ 2)

/-- `total = np.count_nonzero(mask)`. -/
def totalMaskPixels (r : ℤ) : ℕ := (plateMask r).card

/-- The `(label, ratio, circle)` triple returned by
`estimate_plate_leftover`. -/
structure PlateResult where
  label : String
  ratio : Option ℚ
  circle : Option Circle
deriving DecidableEq

/-- `estimate_plate_leftover(bgr_frame)`, with the Hough-transform outcome
and the masked food-pixel count supplied as opaque inputs.  The source's
local names `x, y, r` (the largest circle), `total` and `non_white_ratio`
are inlined. -/
def estimatePlateLeftover :
    Option (List Circle) → (Circle → ℕ) → ℕ → ℕ → PlateResult
  | none, _, _, _ => ⟨"未偵測到餐盤", none, none⟩
  | some cs, foodPixels, h, w =>
    if circleOutOfBounds h w (maxByRadius cs) = true then
      ⟨"餐盤不完整", none, some (maxByRadius cs)⟩
    else if totalMaskPixels (maxByRadius cs).r = 0 then
      ⟨"餐盤區域無效", none, some (maxByRadius cs)⟩
    else if 1/2 ≤ (foodPixels (maxByRadius cs) : ℚ) / (totalMaskPixels (maxByRadius cs).r : ℚ)
      then ⟨"剩餘50%以上",
        some ((foodPixels (maxByRadius cs) : ℚ) / (totalMaskPixels (maxByRadius cs).r : ℚ)),
        some (maxByRadius cs)⟩
      else ⟨"無剩餘",
        some ((foodPixels (maxByRadius cs) : ℚ) / (totalMaskPixels (maxByRadius cs).r : ℚ)),
        some (maxByRadius cs)⟩

theorem foldl_maxBy_eq_or_mem :
    ∀ (l : List Circle) (b : Circle),
      l.foldl (fun best d => if best.r < d.r then d else best) b = b
        ∨ l.foldl (fun best d => if best.r < d.r then d else best) b ∈ l := by
  intro l
  induction l with
  | nil => intro b; left; rfl
  | cons d l ih =>
    intro b
    rw [List.foldl_cons]
    rcases ih (if b.r < d.r then d else b) with h | h
    · rw [h]
      by_cases hbd : b.r < d.r
      · right; simp [hbd]
      · left; simp [hbd]
    · right
      exact List.mem_cons_of_mem d h

theorem maxByRadius_mem (cs : List Circle) (h : cs ≠ []) : maxByRadius cs ∈ cs := by
  match cs with
  | [] => exact absurd rfl h
  | c :: cs' =>
    rcases foldl_maxBy_eq_or_mem cs' c with h' | h'
    · rw [maxByRadius, h']; exact List.mem_cons_self c cs'
    · exact List.mem_cons_of_mem c h'

theorem totalMaskPixels_pos (r : ℤ) (hr : 0 < r) : 0 < totalMaskPixels r := by
  refine Finset.card_pos.mpr ⟨(r, r), ?_⟩
  simp only [plateMask, Finset.mem_filter, Finset.mem_product, Finset.mem_Ico]
  refine ⟨⟨⟨hr.le, by omega⟩, hr.le, by omega⟩, ?_⟩
  simp only [sub_self]
  positivity

theorem label_half_ne_empty : ("剩餘50%以上" : String) ≠ "無剩餘" := by decide

theorem label_half_ne_invalid : ("剩餘50%以上" : String) ≠ "餐盤區域無效" := by decide

theorem label_empty_ne_invalid : ("無剩餘" : String) ≠ "餐盤區域無效" := by decide

theorem estimatePlateLeftover_out (foodPixels : Circle → ℕ) (h w : ℕ)
    (cs : List Circle) (hout : circleOutOfBounds h w (maxByRadius cs) = true) :
    estimatePlateLeftover (some cs) foodPixels h w
      = ⟨"餐盤不完整", none, some (maxByRadius cs)⟩ := by
  rw [estimatePlateLeftover, if_pos hout]

theorem estimatePlateLeftover_invalid (foodPixels : Circle → ℕ) (h w : ℕ)
    (cs : List Circle) (hin : circleOutOfBounds h w (maxByRadius cs) = false)
    (htot : totalMaskPixels (maxByRadius cs).r = 0) :
    estimatePlateLeftover (some cs) foodPixels h w
      = ⟨"餐盤區域無效", none, some (maxByRadius cs)⟩ := by
  rw [estimatePlateLeftover, if_neg (by simp [hin]), if_pos htot]

theorem estimatePlateLeftover_ratio (foodPixels : Circle → ℕ) (h w : ℕ)
    (cs : List Circle) (hin : circleOutOfBounds h w (maxByRadius cs) = false)
    (htot : totalMaskPixels (maxByRadius cs).r ≠ 0) :
    estimatePlateLeftover (some cs) foodPixels h w
      = if 1/2 ≤ (foodPixels (maxByRadius cs) : ℚ) / (totalMaskPixels (maxByRadius cs).r : ℚ)
        then ⟨"剩餘50%以上",
          some ((foodPixels (maxByRadius cs) : ℚ) / (totalMaskPixels (maxByRadius cs).r : ℚ)),
          some (maxByRadius cs)⟩
        else ⟨"無剩餘",
          some ((foodPixels (maxByRadius cs) : ℚ) / (totalMaskPixels (maxByRadius cs).r : ℚ)),
          some (maxByRadius cs)⟩ := by
  rw [estimatePlateLeftover, if_neg (by simp [hin]), if_neg htot]

/-- The per-branch labelling property claimed of
`estimate_plate_leftover`: "no plate detected" when the transform finds no
circle, "incomplete plate" (without a leftover judgment) when the largest
circle extends outside the frame, and otherwise "≥50% remaining" exactly
when the masked food-pixel fraction of the plate area is at least 0.5 and
"no significant leftover" otherwise. -/
def plateLabelProp (foodPixels : Circle → ℕ) (h w : ℕ) (cs : List Circle) : Prop :=
  (estimatePlateLeftover none foodPixels h w).label = "未偵測到餐盤"
  ∧ (circleOutOfBounds h w (maxByRadius cs) = true →
      (estimatePlateLeftover (some cs) foodPixels h w).label = "餐盤不完整"
      ∧ (estimatePlateLeftover (some cs) foodPixels h w).ratio = none)
  ∧ (circleOutOfBounds h w (maxByRadius cs) = false →
      ((estimatePlateLeftover (some cs) foodPixels h w).label = "剩餘50%以上"
        ↔ 1/2 ≤ (foodPixels (maxByRadius cs) : ℚ) / (totalMaskPixels (maxByRadius cs).r : ℚ))
      ∧ ((estimatePlateLeftover (some cs) foodPixels h w).label = "無剩餘"
        ↔ ¬ 1/2 ≤ (foodPixels (maxByRadius cs) : ℚ) / (totalMaskPixels (maxByRadius cs).r : ℚ)))

/-- C5.  Branch labelling of `estimate_plate_leftover`, under the
`HoughCircles` contract that every returned circle respects the configured
`minRadius=60`. -/
theorem plate_label_spec (foodPixels : Circle → ℕ) (h w : ℕ) (cs : List Circle)
    (hne : cs ≠ []) (hmin : ∀ c ∈ cs, 60 ≤ c.r) :
    plateLabelProp foodPixels h w cs := by
  have hr : 0 < (maxByRadius cs).r := by
    have := hmin _ (maxByRadius_mem cs hne)
    omega
  have htot : totalMaskPixels (maxByRadius cs).r ≠ 0 :=
    (totalMaskPixels_pos _ hr).ne'
  refine ⟨rfl, ?_, ?_⟩
  · intro hout
    rw [estimatePlateLeftover_out foodPixels h w cs hout]
    exact ⟨rfl, rfl⟩
  · intro hin
    rw [estimatePlateLeftover_ratio foodPixels h w cs hin htot]
    by_cases hhalf :
        1/2 ≤ (foodPixels (maxByRadius cs) : ℚ) / (totalMaskPixels (maxByRadius cs).r : ℚ)
    · rw [if_pos hhalf]
      constructor
      · exact ⟨fun _ => hhalf, fun _ => rfl⟩
      · constructor
        · intro hlab
          exact absurd hlab label_half_ne_empty
        · intro hno
          exact absurd hhalf hno
    · rw [if_neg hhalf]
      constructor
      · constructor
        · intro hlab
          exact absurd hlab label_half_ne_empty.symm
        · intro hge
          exact absurd hge hhalf
      · exact ⟨fun _ => hhalf, fun _ => rfl⟩

/-- Witness for `plate_label_spec` at a concrete in-bounds circle. -/
theorem plate_label_spec_witness :
    (([⟨250, 250, 60⟩] : List Circle) ≠ [])
    ∧ (∀ c ∈ ([⟨250, 250, 60⟩] : List Circle), 60 ≤ c.r)
    ∧ plateLabelProp (fun _ => 0) 500 500 [⟨250, 250, 60⟩] :=
  ⟨by decide, by decide, plate_label_spec (fun _ => 0) 500 500 _ (by decide) (by decide)⟩

/-- Counterexample to C6.  With the detected circle extending past the
left and top frame edges, the result carries the circle but *no* numeric
ratio, refuting the claim that the ratio is always returned alongside the
label whenever a circle is detected. -/
theorem plate_ratio_missing_cx :
    (estimatePlateLeftover (some [⟨0, 0, 60⟩]) (fun _ => 0) 100 100).circle
        = some ⟨0, 0, 60⟩
    ∧ (estimatePlateLeftover (some [⟨0, 0, 60⟩]) (fun _ => 0) 100 100).label
        = "餐盤不完整"
    ∧ (estimatePlateLeftover (some [⟨0, 0, 60⟩]) (fun _ => 0) 100 100).ratio = none := by
  refine ⟨rfl, rfl, rfl⟩

/-- C6 (amended).  Whenever a circle is detected, its centre/radius are
returned alongside the label in every branch; the numeric ratio, however,
is present exactly for the two leftover-judgment labels and is absent for
the non-leftover statuses. -/
theorem plate_circle_ratio_spec (foodPixels : Circle → ℕ) (h w : ℕ)
    (cs : List Circle) (hne : cs ≠ []) :
    (estimatePlateLeftover (some cs) foodPixels h w).circle = some (maxByRadius cs)
    ∧ ((estimatePlateLeftover (some cs) foodPixels h w).ratio.isSome = true
        ↔ (estimatePlateLeftover (some cs) foodPixels h w).label = "剩餘50%以上"
          ∨ (estimatePlateLeftover (some cs) foodPixels h w).label = "無剩餘") := by
  clear hne
  by_cases hout : circleOutOfBounds h w (maxByRadius cs) = true
  · rw [estimatePlateLeftover_out foodPixels h w cs hout]
    refine ⟨rfl, ?_⟩
    simp
  · rw [Bool.not_eq_true] at hout
    by_cases htot : totalMaskPixels (maxByRadius cs).r = 0
    · rw [estimatePlateLeftover_invalid foodPixels h w cs hout htot]
      refine ⟨rfl, ?_⟩
      simp
    · rw [estimatePlateLeftover_ratio foodPixels h w cs hout htot]
      by_cases hhalf :
          1/2 ≤ (foodPixels (maxByRadius cs) : ℚ) / (totalMaskPixels (maxByRadius cs).r : ℚ)
      · rw [if_pos hhalf]
        exact ⟨rfl, by simp⟩
      · rw [if_neg hhalf]
        exact ⟨rfl, by simp⟩

/-- Witness for `plate_circle_ratio_spec`. -/
theorem plate_circle_ratio_spec_witness :
    (([⟨250, 250, 60⟩] : List Circle) ≠ [])
    ∧ ((estimatePlateLeftover (some [⟨250, 250, 60⟩]) (fun _ => 1) 500 500).circle
          = some (maxByRadius [⟨250, 250, 60⟩])
        ∧ ((estimatePlateLeftover (some [⟨250, 250, 60⟩]) (fun _ => 1) 500 500).ratio.isSome
              = true
          ↔ (estimatePlateLeftover (some [⟨250, 250, 60⟩]) (fun _ => 1) 500 500).label
                = "剩餘50%以上"
            ∨ (estimatePlateLeftover (some [⟨250, 250, 60⟩]) (fun _ => 1) 500 500).label
                = "無剩餘")) :=
  ⟨by decide, plate_circle_ratio_spec (fun _ => 1) 500 500 _ (by decide)⟩

/-- C10.  In-bounds detections have radius at least the configured
Hough `minRadius=60`, so the drawn plate mask is non-empty, the "invalid
plate region" branch is unreachable, and the leftover ratio
`food_pixels / total` is a well-defined division. -/
theorem plate_mask_nonempty_spec (foodPixels : Circle → ℕ) (h w : ℕ)
    (cs : List Circle) (hne : cs ≠ []) (hmin : ∀ c ∈ cs, 60 ≤ c.r)
    (hin : circleOutOfBounds h w (maxByRadius cs) = false) :
    0 < totalMaskPixels (maxByRadius cs).r
    ∧ (estimatePlateLeftover (some cs) foodPixels h w).label ≠ "餐盤區域無效"
    ∧ (estimatePlateLeftover (some cs) foodPixels h w).ratio
        = some ((foodPixels (maxByRadius cs) : ℚ)
            / (totalMaskPixels (maxByRadius cs).r : ℚ)) := by
  have hr : 0 < (maxByRadius cs).r := by
    have := hmin _ (maxByRadius_mem cs hne)
    omega
  have htot := totalMaskPixels_pos (maxByRadius cs).r hr
  rw [estimatePlateLeftover_ratio foodPixels h w cs hin htot.ne']
  by_cases hhalf :
      1/2 ≤ (foodPixels (maxByRadius cs) : ℚ) / (totalMaskPixels (maxByRadius cs).r : ℚ)
  · rw [if_pos hhalf]
    exact ⟨htot, label_half_ne_invalid, rfl⟩
  · rw [if_neg hhalf]
    exact ⟨htot, label_empty_ne_invalid, rfl⟩

/-- Witness for `plate_mask_nonempty_spec`. -/
theorem plate_mask_nonempty_spec_witness :
    (([⟨250, 250, 60⟩] : List Circle) ≠ [])
    ∧ (∀ c ∈ ([⟨250, 250, 60⟩] : List Circle), 60 ≤ c.r)
    ∧ circleOutOfBounds 500 500 (maxByRadius [⟨250, 250, 60⟩]) = false
    ∧ (0 < totalMaskPixels (maxByRadius [⟨250, 250, 60⟩]).r
        ∧ (estimatePlateLeftover (some [⟨250, 250, 60⟩]) (fun _ => 0) 500 500).label
            ≠ "餐盤區域無效"
        ∧ (estimatePlateLeftover (some [⟨250, 250, 60⟩]) (fun _ => 0) 500 500).ratio
            = some ((((fun _ => 0) (maxByRadius [⟨250, 250, 60⟩]) : ℕ) : ℚ)
                / (totalMaskPixels (maxByRadius [⟨250, 250, 60⟩]).r : ℚ))) :=
  ⟨by decide, by decide, by decide,
    plate_mask_nonempty_spec (fun _ => 0) 500 500 _ (by decide) (by decide) (by decide)⟩

/-! ### Remote emotion classification — `services/llm_handler.py`,
function `gpt_image_classify_3cls`

The OpenAI transport is external: the outcome of
`client.chat.completions.create(...)` (a response, or a raised exception)
is a parameter.  Everything inside the function — the `None` guards, the
`try/except` that maps any transport failure to the `"API 錯誤"` label, and
the substring parsing of the model's reply — is translated from the
source. -/

/-- Token metering (`resp.usage`). -/
structure TokenUsage where
  promptTokens : ℕ
  completionTokens : ℕ
  totalTokens : ℕ
deriving DecidableEq

/-- The parts of a chat-completion response the handler reads:
`resp.choices[0].message.content.strip()` and `resp.usage`. -/
structure ChatResponse where
  text : String
  usage : Option TokenUsage
deriving DecidableEq

/-- Python's `t in s` substring test. -/
def strContainsSub (s t : String) : Bool :=
  (s.splitOn t).length != 1

/-- `gpt_image_classify_3cls(face_bgr, client)`.  `faceBgr` is `None` or an
opaque cropped image; `clientPresent` is whether `client` is not `None`;
`apiCall` is the outcome of the remote call.  Returns the
`(emotion, usage)` pair. -/
def gptImageClassify3cls (faceBgr : Option Unit) (clientPresent : Bool)
    (apiCall : Except String ChatResponse) : String × Option TokenUsage :=
  match faceBgr with
  | none => ("無臉", none)
  | some _ =>
    if clientPresent = false then ("（未設定 API）", none)
    else
      match apiCall with
      | .error _ => ("API 錯誤", none)
      | .ok resp =>
        let e1 := if strContainsSub resp.text "喜歡" = true then "喜歡" else "中性"
        let emotion := if strContainsSub resp.text "討厭" = true then "討厭" else e1
        (emotion, resp.usage)

/-! ### The analysis-worker cycle — `core/live_analyzer.py`,
method `_analysis_worker`

One loop iteration ("cycle") of the Analysis Worker, for one dequeued
frame.  The MediaPipe face/pose detectors and the CV pipeline operate on
external image data, so each step's outcome is a parameter: `cropOut` is
what `crop_face_with_mediapipe` did (raised, or returned `None`/a crop),
`poseOut` is what `pose_detector.process` did (raised, or returned
`None`/the landmark `y`-coordinates), and `plateOut` is what
`estimate_plate_leftover` did (raised, or returned its triple).  The
worker body wraps none of these in `try/except`, which the embedding
renders by propagating their `Except.error`; the only contained failure is
the remote call, which `gpt_image_classify_3cls` catches internally. -/

/-- The recognized `analysis_options` flags. -/
structure AnalysisOptions where
  optEmote : Bool
  optNod : Bool
  optPlate : Bool
deriving DecidableEq

/-- `core/types.py` `AnalysisResult`, with the two `display_info` keys the
worker writes (`"plate_label"`, `"plate_circle"`) modelled as optional
fields. -/
structure AnalysisResult where
  nodEvent : Bool
  emotionEvent : String
  plateEvent : String
  tokenUsageEvent : Option TokenUsage
  displayPlateLabel : Option String
  displayPlateCircle : Option Circle
deriving DecidableEq

/-- `AnalysisResult()` default construction. -/
def AnalysisResult.mkEmpty : AnalysisResult := ⟨false, "", "", none, none, none⟩

/-- Worker-thread private state across cycles: the `NodDetector` instance
and `last_emote_ts`. -/
structure WorkerState where
  nod : NodDetector
  lastEmoteTs : ℚ
deriving DecidableEq

/-- The external outcomes feeding one cycle, with the `time.time()`
readings of the cycle merged into one `now`. -/
structure CycleInput where
  now : ℚ
  cropOut : Except String (Option Unit)
  apiCall : Except String ChatResponse
  poseOut : Except String (Option (List ℚ))
  plateOut : Except String PlateResult

/-- Step 1 of the cycle, `run_emotion_task` (run to completion by
`asyncio.run`): throttled remote emotion classification.  Note that
`crop_face_with_mediapipe` is *outside* any `try`, so its failure
propagates, while the remote call's failure has already been mapped to the
`"API 錯誤"` label inside `gpt_image_classify_3cls`.  The worker then
publishes the label only if it is truthy and not in
`["無臉", "API 錯誤", ""]`, and the usage only if present.  Returns the
updated result and `last_emote_ts`. -/
def emotionStep (optEmote clientPresent : Bool) (emoteInterval lastEmoteTs now : ℚ)
    (cropOut : Except String (Option Unit)) (apiCall : Except String ChatResponse)
    (r : AnalysisResult) : Except String (AnalysisResult × ℚ) :=
  if optEmote = true ∧ clientPresent = true ∧ emoteInterval < now - lastEmoteTs then
    match cropOut with
    | .error e => .error e
    | .ok faceCrop =>
      let p := gptImageClassify3cls faceCrop clientPresent apiCall
      let r1 := if p.1 ≠ "" ∧ p.1 ∉ (["無臉", "API 錯誤", ""] : List String)
        then { r with emotionEvent := p.1 } else r
      let r2 := match p.2 with
        | some u => { r1 with tokenUsageEvent := some u }
        | none => r1
      .ok (r2, now)
  else .ok (r, lastEmoteTs)

/-- Step 2 of the cycle: nod detection.  `pose_detector.process` is not
wrapped in `try/except`; absent landmarks are the normal no-event case;
`nose_y = lm[0].y` and `ref_y = (lm[11].y + lm[12].y) / 2 if len(lm) > 12
else 0.5`. -/
def nodStep (optNod : Bool) (nd : NodDetector) (now : ℚ)
    (poseOut : Except String (Option (List ℚ))) (r : AnalysisResult) :
    Except String (AnalysisResult × NodDetector) :=
  if optNod = true then
    match poseOut with
    | .error e => .error e
    | .ok none => .ok (r, nd)
    | .ok (some lm) =>
      let noseY := lm.getD 0 0
      let refY := if 12 < lm.length then (lm.getD 11 0 + lm.getD 12 0) / 2 else 1/2
      let out := nd.updateAndCheck noseY refY now
      .ok ((if out.1 = true then { r with nodEvent := true } else r), out.2)
  else .ok (r, nd)

/-- Step 3 of the cycle: plate-leftover estimation.
`estimate_plate_leftover` is not wrapped in `try/except`; the label is
promoted to `plate_event` only for the two leftover judgments, the label
is always recorded in `display_info`, and the circle is recorded when
present. -/
def plateStep (optPlate : Bool) (plateOut : Except String PlateResult)
    (r : AnalysisResult) : Except String AnalysisResult :=
  if optPlate = true then
    match plateOut with
    | .error e => .error e
    | .ok pr =>
      let r1 := if pr.label ∈ (["剩餘50%以上", "無剩餘"] : List String)
        then { r with plateEvent := pr.label } else r
      let r2 := { r1 with displayPlateLabel := some pr.label }
      let r3 := match pr.circle with
        | some c => { r2 with displayPlateCircle := some c }
        | none => r2
      .ok r3
  else .ok r

/-- One full Analysis Worker cycle: emotion, then nod, then plate, then
the assembled result (the value subsequently offered to the result
queue).  An `Except.error` models an uncaught Python exception
propagating out of the loop body and terminating the worker thread. -/
def analysisCycle (opts : AnalysisOptions) (clientPresent : Bool)
    (emoteInterval : ℚ) (st : WorkerState) (inp : CycleInput) :
    Except String (AnalysisResult × WorkerState) :=
  match emotionStep opts.optEmote clientPresent emoteInterval st.lastEmoteTs inp.now
      inp.cropOut inp.apiCall AnalysisResult.mkEmpty with
  | .error e => .error e
  | .ok (r1, ts1) =>
    match nodStep opts.optNod st.nod inp.now inp.poseOut r1 with
    | .error e => .error e
    | .ok (r2, nd2) =>
      match plateStep opts.optPlate inp.plateOut r2 with
      | .error e => .error e
      | .ok r3 => .ok (r3, ⟨nd2, ts1⟩)

theorem emotionStep_crop_ok (optEmote clientPresent : Bool)
    (emoteInterval lastEmoteTs now : ℚ) (fc : Option Unit)
    (apiCall : Except String ChatResponse) (r : AnalysisResult) :
    ∃ r' ts',
      emotionStep optEmote clientPresent emoteInterval lastEmoteTs now (.ok fc) apiCall r
        = .ok (r', ts') := by
  unfold emotionStep
  by_cases hg : optEmote = true ∧ clientPresent = true ∧ emoteInterval < now - lastEmoteTs
  · rw [if_pos hg]
    exact ⟨_, _, rfl⟩
  · rw [if_neg hg]
    exact ⟨r, lastEmoteTs, rfl⟩

theorem emotionStep_apiError (optEmote clientPresent : Bool)
    (emoteInterval lastEmoteTs now : ℚ) (fc : Option Unit) (e : String)
    (r : AnalysisResult) :
    ∃ ts',
      emotionStep optEmote clientPresent emoteInterval lastEmoteTs now (.ok fc)
          (.error e) r
        = .ok (r, ts') := by
  unfold emotionStep
  by_cases hg : optEmote = true ∧ clientPresent = true ∧ emoteInterval < now - lastEmoteTs
  · rw [if_pos hg]
    obtain ⟨-, hcp, -⟩ := hg
    subst hcp
    cases fc with
    | none => exact ⟨now, rfl⟩
    | some u => exact ⟨now, rfl⟩
  · rw [if_neg hg]
    exact ⟨lastEmoteTs, rfl⟩

theorem nodStep_pose_ok (optNod : Bool) (nd : NodDetector) (now : ℚ)
    (po : Option (List ℚ)) (r : AnalysisResult) :
    ∃ r' nd', nodStep optNod nd now (.ok po) r = .ok (r', nd') := by
  unfold nodStep
  by_cases hon : optNod = true
  · rw [if_pos hon]
    cases po with
    | none => exact ⟨r, nd, rfl⟩
    | some lm => exact ⟨_, _, rfl⟩
  · rw [if_neg hon]
    exact ⟨r, nd, rfl⟩

theorem nodStep_ok_preserves (optNod : Bool) (nd : NodDetector) (now : ℚ)
    (poseOut : Except String (Option (List ℚ))) (r r' : AnalysisResult)
    (nd' : NodDetector) (h : nodStep optNod nd now poseOut r = .ok (r', nd')) :
    r'.emotionEvent = r.emotionEvent ∧ r'.tokenUsageEvent = r.tokenUsageEvent := by
  unfold nodStep at h
  by_cases hon : optNod = true
  · rw [if_pos hon] at h
    cases poseOut with
    | error e => simp at h
    | ok po =>
      cases po with
      | none =>
        simp only [Except.ok.injEq, Prod.mk.injEq] at h
        obtain ⟨h1, -⟩ := h
        rw [← h1]
        exact ⟨rfl, rfl⟩
      | some lm =>
        simp only [Except.ok.injEq, Prod.mk.injEq] at h
        obtain ⟨h1, -⟩ := h
        rw [← h1]
        constructor
        · split <;> split <;> rfl
        · split <;> split <;> rfl
  · rw [if_neg hon] at h
    simp only [Except.ok.injEq, Prod.mk.injEq] at h
    obtain ⟨h1, -⟩ := h
    rw [← h1]
    exact ⟨rfl, rfl⟩

theorem plateStep_plate_ok (optPlate : Bool) (pr : PlateResult) (r : AnalysisResult) :
    ∃ r', plateStep optPlate (.ok pr) r = .ok r' := by
  unfold plateStep
  by_cases hop : optPlate = true
  · rw [if_pos hop]
    exact ⟨_, rfl⟩
  · rw [if_neg hop]
    exact ⟨r, rfl⟩

theorem plateStep_ok_preserves (optPlate : Bool)
    (plateOut : Except String PlateResult) (r r' : AnalysisResult)
    (h : plateStep optPlate plateOut r = .ok r') :
    r'.emotionEvent = r.emotionEvent ∧ r'.tokenUsageEvent = r.tokenUsageEvent := by
  unfold plateStep at h
  by_cases hop : optPlate = true
  · rw [if_pos hop] at h
    cases plateOut with
    | error e => simp at h
    | ok pr =>
      simp only [Except.ok.injEq] at h
      rw [← h]
      constructor
      · split <;> split <;> rfl
      · split <;> split <;> rfl
  · rw [if_neg hop] at h
    simp only [Except.ok.injEq] at h
    rw [← h]
    exact ⟨rfl, rfl⟩

theorem analysisCycle_detectors_ok (opts : AnalysisOptions) (cp : Bool) (iv : ℚ)
    (st : WorkerState) (now : ℚ) (fc : Option Unit)
    (api : Except String ChatResponse) (po : Option (List ℚ)) (pr : PlateResult) :
    ∃ out, analysisCycle opts cp iv st ⟨now, .ok fc, api, .ok po, .ok pr⟩ = .ok out := by
  obtain ⟨r1, ts1, h1⟩ :=
    emotionStep_crop_ok opts.optEmote cp iv st.lastEmoteTs now fc api AnalysisResult.mkEmpty
  obtain ⟨r2, nd2, h2⟩ := nodStep_pose_ok opts.optNod st.nod now po r1
  obtain ⟨r3, h3⟩ := plateStep_plate_ok opts.optPlate pr r2
  refine ⟨(r3, ⟨nd2, ts1⟩), ?_⟩
  simp [analysisCycle, h1, h2, h3]

/-- Counterexample to C2.  With nod detection enabled, an exception raised
by `pose_detector.process` is not caught anywhere in the worker body: the
cycle does not degrade to an empty nod field but aborts with the error,
i.e. the exception propagates out of the loop and terminates the Analysis
Worker thread. -/
theorem worker_pose_error_propagates_cx :
    analysisCycle ⟨false, true, false⟩ true (3/2)
        ⟨NodDetector.mkInit 48 (3/100) 1, 0⟩
        ⟨10, .ok none, .ok ⟨"中性", none⟩, .error "pose detector exception",
          .ok ⟨"未偵測到餐盤", none, none⟩⟩
      = .error "pose detector exception" := rfl

/-- C2 (amended).  Error containment in the worker cycle: (a) when the
face crop, pose detection and plate estimation all return normally, the
cycle publishes a result for *every* remote-call outcome, error included
(the only contained failure); (b) a pose-detection error propagates out of
the cycle when nod detection is enabled; (c) a face-crop error propagates
out of the cycle when the emotion branch is taken; (d) a plate-estimation
error propagates out of the cycle when plate analysis is enabled. -/
theorem worker_error_policy :
    (∀ (opts : AnalysisOptions) (cp : Bool) (iv : ℚ) (st : WorkerState) (now : ℚ)
        (fc : Option Unit) (api : Except String ChatResponse)
        (po : Option (List ℚ)) (pr : PlateResult),
      ∃ out, analysisCycle opts cp iv st ⟨now, .ok fc, api, .ok po, .ok pr⟩ = .ok out)
    ∧ (∀ (oe opl cp : Bool) (iv : ℚ) (st : WorkerState) (now : ℚ) (fc : Option Unit)
        (api : Except String ChatResponse) (e : String) (pr : PlateResult),
      analysisCycle ⟨oe, true, opl⟩ cp iv st ⟨now, .ok fc, api, .error e, .ok pr⟩
        = .error e)
    ∧ (∀ (onod opl : Bool) (iv : ℚ) (st : WorkerState) (now : ℚ) (e : String)
        (api : Except String ChatResponse) (po : Except String (Option (List ℚ)))
        (pl : Except String PlateResult),
      iv < now - st.lastEmoteTs →
      analysisCycle ⟨true, onod, opl⟩ true iv st ⟨now, .error e, api, po, pl⟩
        = .error e)
    ∧ (∀ (oe onod cp : Bool) (iv : ℚ) (st : WorkerState) (now : ℚ) (fc : Option Unit)
        (api : Except String ChatResponse) (po : Option (List ℚ)) (e : String),
      analysisCycle ⟨oe, onod, true⟩ cp iv st ⟨now, .ok fc, api, .ok po, .error e⟩
        = .error e) := by
  refine ⟨analysisCycle_detectors_ok, ?_, ?_, ?_⟩
  · intro oe opl cp iv st now fc api e pr
    obtain ⟨r1, ts1, h1⟩ :=
      emotionStep_crop_ok oe cp iv st.lastEmoteTs now fc api AnalysisResult.mkEmpty
    simp [analysisCycle, h1, nodStep]
  · intro onod opl iv st now e api po pl ht
    simp [analysisCycle, emotionStep, ht]
  · intro oe onod cp iv st now fc api po e
    obtain ⟨r1, ts1, h1⟩ :=
      emotionStep_crop_ok oe cp iv st.lastEmoteTs now fc api AnalysisResult.mkEmpty
    obtain ⟨r2, nd2, h2⟩ := nodStep_pose_ok onod st.nod now po r1
    simp [analysisCycle, h1, h2, plateStep]

/-- Witness for `worker_error_policy`, on its face-crop-error conjunct,
discharging the throttle hypothesis at a concrete state. -/
theorem worker_error_policy_witness :
    ((0 : ℚ) < 1 - (⟨NodDetector.mkInit 48 0 1, 0⟩ : WorkerState).lastEmoteTs)
    ∧ analysisCycle ⟨true, false, false⟩ true 0
        ⟨NodDetector.mkInit 48 0 1, 0⟩
        ⟨1, .error "face detector exception", .ok ⟨"中性", none⟩, .ok none,
          .ok ⟨"未偵測到餐盤", none, none⟩⟩
      = .error "face detector exception" :=
  ⟨by simp, worker_error_policy.2.2.1 false false 0
    ⟨NodDetector.mkInit 48 0 1, 0⟩ 1 "face detector exception"
    (.ok ⟨"中性", none⟩) (.ok none) (.ok ⟨"未偵測到餐盤", none, none⟩) (by simp)⟩

/-- Counterexample to C9.  Two cycles — one where no face was found (and
the remote service would have answered happily), one where a face was
found but the remote call failed — publish *identical* `AnalysisResult`s
(`emotion_event = ""`, no usage), because `run_emotion_task` filters out
both the `"無臉"` and the `"API 錯誤"` labels before writing the result.  A
consumer of the published result therefore cannot distinguish "nothing to
analyze" from "analysis failed". -/
theorem emotion_error_indistinguishable_cx :
    analysisCycle ⟨true, false, false⟩ true (3/2)
        ⟨NodDetector.mkInit 48 (3/100) 1, 0⟩
        ⟨10, .ok (some ()), .error "request timeout", .ok none,
          .ok ⟨"未偵測到餐盤", none, none⟩⟩
      = analysisCycle ⟨true, false, false⟩ true (3/2)
        ⟨NodDetector.mkInit 48 (3/100) 1, 0⟩
        ⟨10, .ok none, .ok ⟨"喜歡", some ⟨9, 1, 10⟩⟩, .ok none,
          .ok ⟨"未偵測到餐盤", none, none⟩⟩ := rfl

/-- C9 (amended).  The classifier adapter itself does return an explicit
`"API 錯誤"` label on a remote failure, distinct from the `"無臉"` label of
the no-face case — but the worker never publishes either: whenever a cycle
whose remote call failed publishes a result, its `emotion_event` is the
empty string and its token usage is absent, exactly as in the no-face
case, so the distinction is invisible in the published
`AnalysisResult`. -/
theorem emotion_error_label_spec :
    (∀ e : String, gptImageClassify3cls (some ()) true (.error e) = ("API 錯誤", none))
    ∧ (∀ (cp : Bool) (api : Except String ChatResponse),
        gptImageClassify3cls none cp api = ("無臉", none))
    ∧ ("API 錯誤" : String) ≠ "無臉"
    ∧ (∀ (opts : AnalysisOptions) (cp : Bool) (iv : ℚ) (st : WorkerState) (now : ℚ)
        (fc : Option Unit) (e : String) (po : Except String (Option (List ℚ)))
        (pl : Except String PlateResult) (r : AnalysisResult) (st' : WorkerState),
      analysisCycle opts cp iv st ⟨now, .ok fc, .error e, po, pl⟩ = .ok (r, st') →
      r.emotionEvent = "" ∧ r.tokenUsageEvent = none) := by
  refine ⟨fun e => rfl, fun cp api => rfl, by decide, ?_⟩
  intro opts cp iv st now fc e po pl r st' hok
  obtain ⟨ts', h1⟩ :=
    emotionStep_apiError opts.optEmote cp iv st.lastEmoteTs now fc e AnalysisResult.mkEmpty
  rw [analysisCycle] at hok
  dsimp only at hok
  rw [h1] at hok
  dsimp only at hok
  cases hnod : nodStep opts.optNod st.nod now po AnalysisResult.mkEmpty with
  | error e' =>
    rw [hnod] at hok
    simp at hok
  | ok p =>
    obtain ⟨r2, nd2⟩ := p
    rw [hnod] at hok
    dsimp only at hok
    obtain ⟨he2, hu2⟩ :=
      nodStep_ok_preserves opts.optNod st.nod now po AnalysisResult.mkEmpty r2 nd2 hnod
    cases hpl : plateStep opts.optPlate pl r2 with
    | error e' =>
      rw [hpl] at hok
      simp at hok
    | ok r3 =>
      rw [hpl] at hok
      obtain ⟨he3, hu3⟩ := plateStep_ok_preserves opts.optPlate pl r2 r3 hpl
      simp only [Except.ok.injEq, Prod.mk.injEq] at hok
      obtain ⟨h3, -⟩ := hok
      rw [← h3]
      exact ⟨by rw [he3, he2]; rfl, by rw [hu3, hu2]; rfl⟩

/-- Witness for `emotion_error_label_spec`, discharging its published-
result premise at a concrete failed-remote-call cycle. -/
theorem emotion_error_label_spec_witness :
    (analysisCycle ⟨false, false, false⟩ true 0
        ⟨NodDetector.mkInit 48 0 1, 0⟩
        ⟨1, .ok (some ()), .error "request timeout", .ok none,
          .ok ⟨"未偵測到餐盤", none, none⟩⟩
      = .ok (AnalysisResult.mkEmpty, ⟨NodDetector.mkInit 48 0 1, 0⟩))
    ∧ (AnalysisResult.mkEmpty.emotionEvent = ""
        ∧ AnalysisResult.mkEmpty.tokenUsageEvent = none) :=
  ⟨rfl, emotion_error_label_spec.2.2.2 ⟨false, false, false⟩ true 0
    ⟨NodDetector.mkInit 48 0 1, 0⟩ 1 (some ()) "request timeout"
    (.ok none) (.ok ⟨"未偵測到餐盤", none, none⟩) AnalysisResult.mkEmpty
    ⟨NodDetector.mkInit 48 0 1, 0⟩ rfl⟩

/-! ### Engine lifecycle — `core/live_analyzer.py`, `start` / `stop`

`start()` guards on `self._camera_thread and self._camera_thread.is_alive()`
only; when not guarded it clears `_stop_event` and spawns a fresh camera
thread and a fresh worker thread, *dropping* the previous handles (a still
alive dropped worker keeps running).  `stop()` sets `_stop_event`, joins
both referenced threads, and clears both handles; all threads of the
engine share the one `_stop_event`, so on `stop()` every thread of the
engine (referenced or dropped) observes the signal and terminates — the
model idealises the bounded `join(timeout=2)` as completing.

A camera thread can terminate *on its own*: `_camera_loop` returns
immediately when `cv2.VideoCapture(0)` fails to open (`camDies`).  A
worker thread can also terminate on its own via an uncaught per-cycle
exception (`wrkDies`, see `worker_error_policy`). -/

/-- Events acting on one engine instance: the two public calls plus
spontaneous termination of the referenced camera / worker thread. -/
inductive EngineEvent
  | start
  | stop
  | camDies
  | wrkDies
deriving DecidableEq

/-- Engine thread-lifecycle state.  `camRef`/`wrkRef` are the
`_camera_thread` / `_worker_thread` handles (`none`, or `some alive`);
`camOrphans`/`wrkOrphans` count still-alive threads whose handles were
dropped by a re-`start()`; `stopEventSet` is `_stop_event`. -/
structure EngineState where
  camRef : Option Bool
  wrkRef : Option Bool
  camOrphans : ℕ
  wrkOrphans : ℕ
  stopEventSet : Bool
deriving DecidableEq

/-- `LiveAnalyzer.__init__`: no threads, event clear. -/
def initEngine : EngineState := ⟨none, none, 0, 0, false⟩

/-- One engine event.  `start` is guarded by the camera handle only; when
it spawns, a dropped still-alive worker handle becomes an orphan.  `stop`
sets the event, joins, and clears the handles; every thread observes the
shared event and exits.  `camDies`/`wrkDies` flip the referenced thread to
dead. -/
def engineStep (s : EngineState) : EngineEvent → EngineState
  | .start =>
    if s.camRef = some true then s
    else
      { camRef := some true, wrkRef := some true,
        camOrphans := s.camOrphans,
        wrkOrphans := s.wrkOrphans + (if s.wrkRef = some true then 1 else 0),
        stopEventSet := false }
  | .stop => ⟨none, none, 0, 0, true⟩
  | .camDies =>
    { s with camRef := if s.camRef = some true then some false else s.camRef }
  | .wrkDies =>
    { s with wrkRef := if s.wrkRef = some true then some false else s.wrkRef }

/-- Run a sequence of events from a fresh engine. -/
def engineRun (evs : List EngineEvent) : EngineState :=
  evs.foldl engineStep initEngine

/-- Number of live Camera Producer threads of the instance. -/
def aliveCam (s : EngineState) : ℕ :=
  (if s.camRef = some true then 1 else 0) + s.camOrphans

/-- Number of live Analysis Worker threads of the instance. -/
def aliveWrk (s : EngineState) : ℕ :=
  (if s.wrkRef = some true then 1 else 0) + s.wrkOrphans

/-- Invariant maintained by every event except a spontaneous camera-thread
death. -/
def engineInv (s : EngineState) : Prop :=
  s.camOrphans = 0 ∧ s.wrkOrphans = 0 ∧ s.camRef ≠ some false
    ∧ (s.wrkRef ≠ none → s.camRef = some true)

theorem engineInv_init : engineInv initEngine := by
  refine ⟨rfl, rfl, by simp [initEngine], by simp [initEngine]⟩

theorem engineInv_step (s : EngineState) (e : EngineEvent) (hs : engineInv s)
    (he : e ≠ .camDies) : engineInv (engineStep s e) := by
  obtain ⟨hco, hwo, hcr, hwc⟩ := hs
  cases e with
  | start =>
    by_cases hg : s.camRef = some true
    · rw [engineStep, if_pos hg]
      exact ⟨hco, hwo, hcr, hwc⟩
    · rw [engineStep, if_neg hg]
      have hwn : s.wrkRef = none := by
        by_contra hne
        exact hg (hwc hne)
      refine ⟨hco, ?_, by simp, fun _ => rfl⟩
      rw [hwn, hwo]
      simp
  | stop =>
    exact ⟨rfl, rfl, by simp [engineStep], by simp [engineStep]⟩
  | camDies => exact absurd rfl he
  | wrkDies =>
    refine ⟨hco, hwo, ?_, ?_⟩
    · simpa [engineStep] using hcr
    · intro hne
      simp only [engineStep] at hne ⊢
      by_cases hw : s.wrkRef = some true
      · exact hwc (by rw [hw]; simp)
      · rw [if_neg hw] at hne
        exact hwc hne

theorem engineInv_run (evs : List EngineEvent) (hnc : EngineEvent.camDies ∉ evs) :
    engineInv (engineRun evs) := by
  suffices h : ∀ (l : List EngineEvent) (s : EngineState), engineInv s →
      EngineEvent.camDies ∉ l → engineInv (l.foldl engineStep s) by
    exact h evs initEngine engineInv_init hnc
  intro l
  induction l with
  | nil => intro s hs _; exact hs
  | cons e l ih =>
    intro s hs hni
    rw [List.foldl_cons]
    have hne : e ≠ .camDies := fun h => hni (h ▸ List.mem_cons_self e l)
    have hnl : EngineEvent.camDies ∉ l := fun h => hni (List.mem_cons_of_mem e h)
    exact ih (engineStep s e) (engineInv_step s e hs hne) hnl

/-- Counterexample to C1.  The camera thread terminates on its own (its
capture device failed to open) while the worker stays alive; the next
`start()` sees a dead camera thread, spawns a fresh pair, and drops the
handle of the still-running worker: two Analysis Worker threads of the
same engine instance are now alive simultaneously. -/
theorem engine_duplicate_worker_cx :
    aliveWrk (engineRun [.start, .camDies, .start]) = 2
    ∧ aliveCam (engineRun [.start, .camDies, .start]) = 1 := by
  exact ⟨rfl, rfl⟩

/-- C1 (amended).  `start()` twice in a row is idempotent and a fresh
double `start()` leaves exactly one live producer/worker pair; and for
every event sequence in which the camera thread never terminates on its
own, at most one Camera Producer and at most one Analysis Worker thread
are alive (spontaneous *worker* deaths included).  The at-most-one bound
on workers does not survive a spontaneous camera death followed by a
re-`start()` (see the counterexample). -/
theorem engine_thread_bounds :
    (∀ s : EngineState, engineStep (engineStep s .start) .start = engineStep s .start)
    ∧ aliveCam (engineRun [.start, .start]) = 1
    ∧ aliveWrk (engineRun [.start, .start]) = 1
    ∧ (∀ evs : List EngineEvent, EngineEvent.camDies ∉ evs →
        aliveCam (engineRun evs) ≤ 1 ∧ aliveWrk (engineRun evs) ≤ 1) := by
  refine ⟨?_, rfl, rfl, ?_⟩
  · intro s
    by_cases hg : s.camRef = some true
    · have h1 : engineStep s .start = s := by rw [engineStep, if_pos hg]
      rw [h1]
      exact h1
    · have h1 : engineStep s .start
          = ⟨some true, some true, s.camOrphans,
              s.wrkOrphans + (if s.wrkRef = some true then 1 else 0), false⟩ := by
        rw [engineStep, if_neg hg]
      rw [h1, engineStep]
      simp
  · intro evs hnc
    obtain ⟨hco, hwo, -, -⟩ := engineInv_run evs hnc
    constructor
    · rw [aliveCam, hco]
      split
      · exact le_refl 1
      · exact Nat.zero_le 1
    · rw [aliveWrk, hwo]
      split
      · exact le_refl 1
      · exact Nat.zero_le 1

/-- Witness for `engine_thread_bounds`, discharging the no-camera-death
hypothesis on a concrete start/stop/start trace. -/
theorem engine_thread_bounds_witness :
    (EngineEvent.camDies ∉ [EngineEvent.start, .stop, .start])
    ∧ (aliveCam (engineRun [EngineEvent.start, .stop, .start]) ≤ 1
        ∧ aliveWrk (engineRun [EngineEvent.start, .stop, .start]) ≤ 1) :=
  ⟨by decide, engine_thread_bounds.2.2.2 [.start, .stop, .start] (by decide)⟩

/-! ### The bounded queues — `core/live_analyzer.py`

All three queues are `queue.Queue(maxsize=CAMERA_BUFFER_SIZE)`.  All
three producer-side enqueues (`_camera_loop` → display queue,
`_camera_loop` → analysis queue, `_analysis_worker` → result queue) are
`put_nowait(...)` under `except Full: pass`: non-blocking, and on a full
queue the *new* item is discarded (drop-newest).  `put_nowait` raises
`Full` exactly when `maxsize > 0` and the queue holds at least `maxsize`
items. -/

/-- A Python `queue.Queue` with its `maxsize`; `items` is FIFO with the
oldest element first. -/
structure BQueue (α : Type) where
  cap : ℕ
  items : List α
deriving DecidableEq

/-- `put_nowait` under `except Full: pass`: a total, never-blocking
operation that drops the new item when the queue is bounded and full. -/
def BQueue.putNowait {α : Type} (q : BQueue α) (a : α) : BQueue α :=
  if 0 < q.cap ∧ q.cap ≤ q.items.length then q
  else { q with items := q.items ++ [a] }

/-- `get_nowait` under `except Empty: return None`. -/
def BQueue.getNowait {α : Type} (q : BQueue α) : Option α × BQueue α :=
  match q.items with
  | [] => (none, q)
  | x :: xs => (some x, { q with items := xs })

/-- `Queue(maxsize=cap)`. -/
def BQueue.emptyQ (α : Type) (cap : ℕ) : BQueue α := ⟨cap, []⟩

/-- Enqueue a whole list, oldest first. -/
def enqueueAll {α : Type} (q : BQueue α) (xs : List α) : BQueue α :=
  xs.foldl BQueue.putNowait q

/-- The three engine queues. -/
inductive QueueId
  | display
  | analysisInput
  | analysisResult
deriving DecidableEq

/-- The two overflow behaviours named by the spec. -/
inductive OverflowPolicy
  | dropNewest
  | dropOldest
deriving DecidableEq

/-- Which overflow policy each producer-side enqueue uses in the source:
all three sites are `put_nowait` + `except Full: pass`, i.e. the new item
is dropped. -/
def producerEnqueuePolicy : QueueId → OverflowPolicy := fun _ => .dropNewest

theorem enqueueAll_items :
    ∀ {α : Type} (xs : List α) (q : BQueue α), 0 < q.cap →
      q.items.length ≤ q.cap →
      (enqueueAll q xs).items = q.items ++ xs.take (q.cap - q.items.length)
      ∧ (enqueueAll q xs).cap = q.cap := by
  intro α xs
  induction xs with
  | nil =>
    intro q _ _
    simp [enqueueAll]
  | cons x xs ih =>
    intro q hpos hle
    by_cases hfull : q.cap ≤ q.items.length
    · have hq : BQueue.putNowait q x = q := by
        rw [BQueue.putNowait, if_pos ⟨hpos, hfull⟩]
      have heq : q.cap - q.items.length = 0 := by omega
      have := ih q hpos hle
      rw [enqueueAll, List.foldl_cons, hq, ← enqueueAll]
      rw [heq] at this ⊢
      simpa using this
    · have hlt : q.items.length < q.cap := by omega
      have hq : BQueue.putNowait q x = ⟨q.cap, q.items ++ [x]⟩ := by
        rw [BQueue.putNowait, if_neg (by omega)]
      have hlen : (q.items ++ [x]).length ≤ q.cap := by
        rw [List.length_append]
        simpa using hlt
      have := ih ⟨q.cap, q.items ++ [x]⟩ hpos hlen
      rw [enqueueAll, List.foldl_cons, hq, ← enqueueAll]
      refine ⟨?_, this.2⟩
      rw [this.1]
      simp only [List.length_append, List.length_cons, List.length_nil]
      have hsub : q.cap - q.items.length = (q.cap - (q.items.length + 1)) + 1 := by omega
      rw [hsub, List.take_succ_cons, List.append_assoc, List.cons_append, List.nil_append]

/-- C7.  Queue-overflow behaviour of the engine's bounded queues:
enqueuing `N + 1` items into an empty capacity-`N` queue never blocks (the
embedded `put_nowait` is a total function), leaves exactly `N` items
retrievable — the first `N` offered, the source's drop-newest policy — a
bounded queue never exceeds its capacity under `put_nowait`, and every
producer-side enqueue site uses the drop-newest policy (so the claim's
drop-oldest proviso applies to no engine queue). -/
theorem queue_overflow_spec :
    (∀ (α : Type) (N : ℕ) (xs : List α), 0 < N → xs.length = N + 1 →
      (enqueueAll (BQueue.emptyQ α N) xs).items = xs.take N
      ∧ (enqueueAll (BQueue.emptyQ α N) xs).items.length = N)
    ∧ (∀ (α : Type) (q : BQueue α) (a : α), 0 < q.cap → q.items.length ≤ q.cap →
        (q.putNowait a).items.length ≤ q.cap)
    ∧ (∀ qid : QueueId, producerEnqueuePolicy qid = .dropNewest) := by
  refine ⟨?_, ?_, fun _ => rfl⟩
  · intro α N xs hN hlen
    have h := enqueueAll_items xs (BQueue.emptyQ α N) hN (by simp [BQueue.emptyQ])
    have hitems : (enqueueAll (BQueue.emptyQ α N) xs).items = xs.take N := by
      rw [h.1]
      simp [BQueue.emptyQ]
    refine ⟨hitems, ?_⟩
    rw [hitems, List.length_take, hlen]
    omega
  · intro α q a hpos hle
    by_cases hfull : q.cap ≤ q.items.length
    · rw [BQueue.putNowait, if_pos ⟨hpos, hfull⟩]
      exact hle
    · rw [BQueue.putNowait, if_neg (by omega)]
      simp only [List.length_append, List.length_cons, List.length_nil]
      omega

/-- Witness for `queue_overflow_spec`: three items into a capacity-2
queue. -/
theorem queue_overflow_spec_witness :
    ((0 : ℕ) < 2 ∧ ([5, 6, 7] : List ℕ).length = 2 + 1)
    ∧ ((enqueueAll (BQueue.emptyQ ℕ 2) [5, 6, 7]).items = [5, 6, 7].take 2
        ∧ (enqueueAll (BQueue.emptyQ ℕ 2) [5, 6, 7]).items.length = 2) :=
  ⟨⟨by decide, by decide⟩,
    queue_overflow_spec.1 ℕ 2 [5, 6, 7] (by decide) (by decide)⟩

/-! ### Configuration constants — `config.py` and their use by the engine

`config.py` defines `NOD_BUFFER_LEN = 48`, `NOD_AMP_THRESH = 0.03`,
`NOD_COOLDOWN_SECONDS = 1.0`, `EMOTE_INTERVAL_SECONDS = 1.5`;
`core/live_analyzer.py` additionally imports `CAMERA_RESOLUTION_WIDTH`,
`CAMERA_RESOLUTION_HEIGHT` and `CAMERA_BUFFER_SIZE` from the config
module (names that `config.py` as shipped does not define).  The `Config`
structure below is the externally-supplied constant surface the spec
describes; the definitions after it record which of those constants the
engine code actually consumes, and which values it hardcodes instead. -/

/-- The externally supplied timing/CV configuration surface. -/
structure Config where
  nodBufferLen : ℕ
  nodAmpThresh : ℚ
  nodCooldownSeconds : ℚ
  emoteIntervalSeconds : ℚ
  cameraResolutionWidth : ℕ
  cameraResolutionHeight : ℕ
  cameraBufferSize : ℕ
  captureLoopDelay : ℚ

/-- The `NodDetector` the Analysis Worker constructs: `va.NodDetector()`
with all-default arguments, i.e. `buf_len = NOD_BUFFER_LEN` (a config
constant) but `amp_thresh = 0.03` and `cooldown = 1.0`, the literals
hardcoded in the `NodDetector.__init__` signature — the config constants
`NOD_AMP_THRESH` and `NOD_COOLDOWN_SECONDS` are never referenced. -/
def workerNodDetector (cfg : Config) : NodDetector :=
  NodDetector.mkInit cfg.nodBufferLen (3/100) 1

/-- The camera loop's inter-read delay: the literal `time.sleep(0.02)` in
`_camera_loop`, independent of any configuration input. -/
def cameraLoopDelaySeconds (_cfg : Config) : ℚ := 1/50

/-- The capture resolution applied by `_camera_loop` via
`cap.set(cv2.CAP_PROP_FRAME_WIDTH/HEIGHT, ...)`: the imported config
constants. -/
def cameraCaptureSize (cfg : Config) : ℕ × ℕ :=
  (cfg.cameraResolutionWidth, cfg.cameraResolutionHeight)

/-- The `maxsize` of each of the three engine queues:
`CAMERA_BUFFER_SIZE`. -/
def engineQueueCapacity (cfg : Config) : ℕ := cfg.cameraBufferSize

/-- Counterexample to C8.  At a configuration whose nod amplitude
threshold, nod cooldown and capture-loop delay differ from the code's
literals, the engine still uses `0.03`, `1.0` and `0.02`: those three
values are hardcoded, not taken from the configuration. -/
theorem config_hardcoded_cx :
    (workerNodDetector ⟨48, 1, 7, 3/2, 640, 480, 2, 1/10⟩).ampThresh
        ≠ (⟨48, 1, 7, 3/2, 640, 480, 2, 1/10⟩ : Config).nodAmpThresh
    ∧ (workerNodDetector ⟨48, 1, 7, 3/2, 640, 480, 2, 1/10⟩).cooldown
        ≠ (⟨48, 1, 7, 3/2, 640, 480, 2, 1/10⟩ : Config).nodCooldownSeconds
    ∧ cameraLoopDelaySeconds ⟨48, 1, 7, 3/2, 640, 480, 2, 1/10⟩
        ≠ (⟨48, 1, 7, 3/2, 640, 480, 2, 1/10⟩ : Config).captureLoopDelay := by
  refine ⟨?_, ?_, ?_⟩ <;>
    norm_num [workerNodDetector, NodDetector.mkInit, cameraLoopDelaySeconds]

/-- C8 (amended).  Of the claimed configuration inputs, the nod buffer
length, the capture resolution and the queue capacity really are the
externally supplied constants; but the `NodDetector` the worker constructs
uses the hardcoded defaults `amp_thresh = 0.03` and `cooldown = 1.0`, and
the camera loop's inter-read delay is the hardcoded literal `0.02`
seconds, for every configuration. -/
theorem config_usage_spec (cfg : Config) :
    (workerNodDetector cfg).maxlen = cfg.nodBufferLen
    ∧ cameraCaptureSize cfg = (cfg.cameraResolutionWidth, cfg.cameraResolutionHeight)
    ∧ engineQueueCapacity cfg = cfg.cameraBufferSize
    ∧ (workerNodDetector cfg).ampThresh = 3/100
    ∧ (workerNodDetector cfg).cooldown = 1
    ∧ cameraLoopDelaySeconds cfg = 1/50 :=
  ⟨rfl, rfl, rfl, rfl, rfl, rfl⟩

end DineSence
